import Mathlib

/-!
Verification of the axios-retry engine (src/index.ts) against its design
documentation: a shallow embedding of the error classifiers, the delay
strategies, the per-request retry state and the two interceptors, with
theorems settling the documented properties.

Conventions of the embedding:
* JavaScript machine integers / timestamps are modelled as Int, delays with
  fractional jitter as Rat.
* A field that JavaScript treats by truthiness is modelled so that the falsy
  values are representable: Option String (absent / empty string),
  Int with 0 for an unset timeout or lastRequestTime.
* Platform functions (Number coercion, Date parsing, Date.now, Math.random)
  and external callbacks (is-retry-allowed, the user hooks) are threaded in
  as parameters; a hook that can reject is passed as its settled outcome
  (Except rejection value).
-/

namespace AxiosRetry

/-- A JavaScript runtime value as far as the retry decision inspects one.
Note that in JavaScript, typeof null = "object". -/
inductive JSValue where
  | bool (b : Bool)
  | num (n : Int)
  | str (s : String)
  | undefined
  | null
  | obj
deriving DecidableEq, Repr

/-- The JavaScript typeof operator on the modelled values. -/
def JSValue.typeof : JSValue → String
  | .bool _ => "boolean"
  | .num _ => "number"
  | .str _ => "string"
  | .undefined => "undefined"
  | .null => "object"
  | .obj => "object"

/-- JavaScript truthiness of the modelled values (an arbitrary object is
truthy; 0, the empty string, undefined and null are falsy). -/
def JSValue.truthy : JSValue → Bool
  | .bool b => b
  | .num n => n != 0
  | .str s => s != ""
  | .undefined => false
  | .null => false
  | .obj => true

/-- An HTTP response as the classifiers and retryAfter read it: a numeric
status and the (lower-cased, as axios normalises them) header entries. -/
structure Response where
  status : Int
  headers : List (String × String)
deriving DecidableEq, Repr

/-- The slice of the axios request config the classifiers read off an error. -/
structure ErrConfig where
  method : Option String
deriving DecidableEq, Repr

/-- An AxiosError as the classifiers read it: optional code, optional
response, optional config. -/
structure JSError where
  code : Option String
  response : Option Response
  config : Option ErrConfig
deriving DecidableEq, Repr

/-- JavaScript truthiness of an optional string: absent (undefined) and the
empty string are falsy. -/
def strTruthy : Option String → Bool
  | none => false
  | some s => s != ""

/-- src/index.ts CODE_EXCLUDE_LIST. -/
def CODE_EXCLUDE_LIST : List String := ["ERR_CANCELED", "ECONNABORTED"]

/-- src/index.ts isNetworkError. The final check comes from the external
package is-retry-allowed and is passed in as the predicate isRetryAllowed. -/
def isNetworkError (isRetryAllowed : JSError → Bool) (error : JSError) : Bool :=
  if error.response.isSome then false
  else if !strTruthy error.code then false
  else if error.code.any (fun c => CODE_EXCLUDE_LIST.contains c) then false
  else isRetryAllowed error

/-- src/index.ts SAFE_HTTP_METHODS. -/
def SAFE_HTTP_METHODS : List String := ["get", "head", "options"]

/-- src/index.ts IDEMPOTENT_HTTP_METHODS = SAFE_HTTP_METHODS.concat(put, delete). -/
def IDEMPOTENT_HTTP_METHODS : List String := SAFE_HTTP_METHODS ++ ["put", "delete"]

/-- src/index.ts isRetryableError:
code ≠ ECONNABORTED ∧ (no response ∨ status = 429 ∨ 500 ≤ status ≤ 599). -/
def isRetryableError (error : JSError) : Bool :=
  error.code != some "ECONNABORTED" &&
    (match error.response with
     | none => true
     | some r => r.status == 429 || (decide (500 ≤ r.status) && decide (r.status ≤ 599)))

/-- error.config?.method as an optional string. -/
def configMethod (error : JSError) : Option String :=
  error.config.bind (fun c => c.method)

/-- src/index.ts isSafeRequestError: false when error.config?.method is
falsy, else isRetryableError ∧ the method is one of the safe methods. -/
def isSafeRequestError (error : JSError) : Bool :=
  match configMethod error with
  | none => false
  | some m =>
    if m = "" then false
    else isRetryableError error && SAFE_HTTP_METHODS.contains m

/-- src/index.ts isIdempotentRequestError: false when error.config?.method is
falsy, else isRetryableError ∧ the method is one of the idempotent methods. -/
def isIdempotentRequestError (error : JSError) : Bool :=
  match configMethod error with
  | none => false
  | some m =>
    if m = "" then false
    else isRetryableError error && IDEMPOTENT_HTTP_METHODS.contains m

/-- src/index.ts isNetworkOrIdempotentRequestError. -/
def isNetworkOrIdempotentRequestError (isRetryAllowed : JSError → Bool)
    (error : JSError) : Bool :=
  isNetworkError isRetryAllowed error || isIdempotentRequestError error

/-- (error?.response?.headers || the empty object)["retry-after"]. -/
def retryAfterHeader (error : Option JSError) : Option String :=
  error.bind (fun e => e.response.bind (fun r => r.headers.lookup "retry-after"))

/-- src/index.ts retryAfter. The platform coercions are parameters: toNum s
models Number(s) (none = NaN), parseDate s models new Date(s).valueOf()
(none = invalid date, i.e. NaN), now models Date.now(). A falsy header
(absent or empty) gives 0; a numeric header is seconds converted to
milliseconds; a header whose numeric coercion is 0 or NaN is read as a date
and now is subtracted; the result is floored at 0. -/
def retryAfter (toNum parseDate : String → Option Int) (now : Int)
    (error : Option JSError) : Int :=
  match retryAfterHeader error with
  | none => 0
  | some h =>
    if h = "" then 0
    else
      let retryAfterMs : Int := (toNum h).getD 0 * 1000
      let retryAfterMs : Int :=
        if retryAfterMs = 0 then (parseDate h).getD 0 - now else retryAfterMs
      max 0 retryAfterMs

/-- src/index.ts noDelay (the default retryDelay): max(0, retryAfter). -/
def noDelay (toNum parseDate : String → Option Int) (now : Int)
    (_retryCount : Nat) (error : Option JSError) : Int :=
  max 0 (retryAfter toNum parseDate now error)

/-- src/index.ts linearDelay (delayFactor defaults to 100): the returned
closure computes max(retryCount * delayFactor, retryAfter(error)). -/
def linearDelay (toNum parseDate : String → Option Int) (now : Int)
    (delayFactor : Int) (retryCount : Nat) (error : Option JSError) : Int :=
  max ((retryCount : Int) * delayFactor) (retryAfter toNum parseDate now error)

/-- src/index.ts exponentialDelay (delayFactor defaults to 100): delay =
max(2 ^ retryCount * delayFactor, retryAfter(error)) plus a jitter of
delay * 0.2 * Math.random(); rand models the Math.random() draw. -/
def exponentialDelay (toNum parseDate : String → Option Int) (now : Int)
    (rand : ℚ) (retryCount : Nat) (error : Option JSError)
    (delayFactor : ℚ) : ℚ :=
  let calculatedDelay : ℚ := 2 ^ retryCount * delayFactor
  let delay : ℚ := max calculatedDelay ((retryAfter toNum parseDate now error : Int) : ℚ)
  let randomSum : ℚ := delay * (1 / 5) * rand
  delay + randomSum

/-- The resolved option fields carried by Required of IAxiosRetryConfig
(the function-valued retryDelay and the per-request hooks are threaded
separately, as parameters or settled outcomes). -/
structure FullOptions where
  retries : Nat
  shouldResetTimeout : Bool
  retryCondition : JSError → Bool

/-- src/index.ts DEFAULT_OPTIONS: retries 3, retryCondition
isNetworkOrIdempotentRequestError, shouldResetTimeout false (retryDelay
defaults to noDelay, threaded separately where needed). -/
def DEFAULT_OPTIONS (isRetryAllowed : JSError → Bool) : FullOptions :=
  { retries := 3,
    shouldResetTimeout := false,
    retryCondition := isNetworkOrIdempotentRequestError isRetryAllowed }

/-- The per-request IAxiosRetryConfigExtended blob stored at the reserved
key config["axios-retry"]; a none field is absent from the object. (The
hook fields merge the same way and are not modelled.) -/
structure ExtOptions where
  retries : Option Nat
  shouldResetTimeout : Option Bool
  retryCount : Option Nat
  lastRequestTime : Option Int
deriving DecidableEq, Repr

/-- Client-wide defaults (IAxiosRetryConfig: no retryCount /
lastRequestTime fields exist on it). -/
structure ClientOptions where
  retries : Option Nat
  shouldResetTimeout : Option Bool
deriving DecidableEq, Repr

/-- The state setCurrentState stores back into config["axios-retry"]
(Required of IAxiosRetryConfigExtended, data fields). lastRequestTime = 0
models the unset (falsy) timestamp. -/
structure RetryState where
  retries : Nat
  retryCount : Nat
  lastRequestTime : Int
  shouldResetTimeout : Bool
deriving DecidableEq, Repr

/-- src/index.ts getRequestOptions: the object spread of DEFAULT_OPTIONS
(retries 3, shouldResetTimeout false), then the client-wide defaults, then
config["axios-retry"] — a later object's present field wins. -/
def getRequestOptions (ns : Option ExtOptions) (defaults : ClientOptions) :
    ExtOptions :=
  let nsv := ns.getD ⟨none, none, none, none⟩
  { retries :=
      (nsv.retries.orElse (fun _ => defaults.retries)).orElse
        (fun _ => some (DEFAULT_OPTIONS (fun _ => true)).retries),
    shouldResetTimeout :=
      (nsv.shouldResetTimeout.orElse (fun _ => defaults.shouldResetTimeout)).orElse
        (fun _ => some (DEFAULT_OPTIONS (fun _ => true)).shouldResetTimeout),
    retryCount := nsv.retryCount,
    lastRequestTime := nsv.lastRequestTime }

/-- src/index.ts setCurrentState: resolve the options, default retryCount
to 0 (retryCount || 0), and set lastRequestTime := Date.now() when it is
falsy or when resetLastRequestTime is passed; store and return the state. -/
def setCurrentState (ns : Option ExtOptions) (defaults : ClientOptions)
    (resetLastRequestTime : Bool) (now : Int) : RetryState :=
  let cs := getRequestOptions ns defaults
  let lrt := cs.lastRequestTime.getD 0
  { retries := cs.retries.getD 0,
    retryCount := cs.retryCount.getD 0,
    lastRequestTime := if lrt == 0 || resetLastRequestTime then now else lrt,
    shouldResetTimeout := cs.shouldResetTimeout.getD false }

/-- The request interceptor registered by axiosRetry: it calls
setCurrentState(config, defaultOptions, true) on every outgoing dispatch —
resetLastRequestTime is always true on this path. -/
def requestInterceptor (ns : Option ExtOptions) (defaults : ClientOptions)
    (now : Int) : RetryState :=
  setCurrentState ns defaults true now

/-- The response error interceptor resolves the state with
setCurrentState(config, defaultOptions): resetLastRequestTime defaults to
false there. -/
def responseSetCurrentState (ns : Option ExtOptions) (defaults : ClientOptions)
    (now : Int) : RetryState :=
  setCurrentState ns defaults false now

/-- The outcome of the call retryCondition(error): a returned plain value,
a returned promise settling to ok (resolved) or error (rejected), or a
synchronous throw. -/
inductive CondReturn where
  | value (v : JSValue)
  | promise (r : Except JSValue JSValue)
  | throws (e : JSValue)

/-- src/index.ts shouldRetry: evaluates
(retryCount || 0) < retries && retryCondition(error) — short-circuit, so
the condition is not called once the budget is exhausted. Values whose
typeof is "object" (a promise, a plain object, and null) go through the
await branch, where a rejection yields false and any settled value other
than false yields true; awaiting a non-thenable resolves to the value
itself. Any other value is returned raw (the caller branches on its
truthiness). A synchronous throw from the condition is not caught: the
async function rejects (modelled as Except.error). -/
def shouldRetry (retryCount retries : Nat) (cond : CondReturn) :
    Except JSValue JSValue :=
  if retryCount < retries then
    match cond with
    | .throws e => .error e
    | .promise (.ok v) => .ok (.bool (v != .bool false))
    | .promise (.error _) => .ok (.bool false)
    | .value v =>
      if v.typeof = "object" then .ok (.bool (v != .bool false))
      else .ok v
  else .ok (.bool false)

/-- The response interceptor's branch on await shouldRetry(...): the
truthiness of the awaited value, or the propagated rejection. -/
def decideRetry (retryCount retries : Nat) (cond : CondReturn) :
    Except JSValue Bool :=
  (shouldRetry retryCount retries cond).map JSValue.truthy

/-- The fields of the axios request config that handleRetry touches.
timeout = 0 models an unset (falsy) timeout. transformRequestIdentity is
true once transformRequest has been reset to the identity chain
[(data) => data]. (The agent fields fixConfig may delete are
connection-pool bookkeeping with no effect on the retry logic and are not
modelled: fixConfig is the identity here.) -/
structure ReqConfig where
  timeout : Int
  transformRequestIdentity : Bool
  signalAborted : Bool
deriving DecidableEq, Repr

/-- How the promise handleRetry returns settles. -/
inductive RetryOutcome where
  | rejectOriginal
  | rejectHook (e : JSValue)
  | dispatchNow
  | dispatchAfter (delay : Int)
deriving DecidableEq, Repr

/-- What handleRetry leaves behind: the incremented retryCount, the final
request config, whether the onRetry hook was invoked, and the outcome. -/
structure HandleRetryResult where
  retryCount : Nat
  config : ReqConfig
  onRetryInvoked : Bool
  outcome : RetryOutcome
deriving DecidableEq, Repr

/-- The tail of handleRetry past the timeout-budget check: reset
transformRequest to the identity chain, await onRetry (a rejection
propagates and abandons the resubmission), then resubmit — at once when
the cancellation signal is already aborted, else after the delay. -/
def handleRetryDispatch (retryCount : Nat) (delay : Int) (config : ReqConfig)
    (onRetryResult : Except JSValue Unit) : HandleRetryResult :=
  let config := { config with transformRequestIdentity := true }
  match onRetryResult with
  | .error e => ⟨retryCount, config, true, .rejectHook e⟩
  | .ok _ =>
    if config.signalAborted then ⟨retryCount, config, true, .dispatchNow⟩
    else ⟨retryCount, config, true, .dispatchAfter delay⟩

/-- src/index.ts handleRetry: increment retryCount, compute the delay, and
when shouldResetTimeout is falsy and config.timeout and
currentState.lastRequestTime are truthy, apply the budget arithmetic:
timeout := config.timeout - (Date.now() - lastRequestTime) - delay; a
non-positive remainder rejects with the original error at once, otherwise
the config's timeout becomes the remainder and the dispatch tail runs.
retryDelay is the resolved retryDelay option, onRetryResult the settling
of the awaited onRetry hook, now is Date.now() at the budget check. -/
def handleRetry (st : RetryState) (error : JSError) (config : ReqConfig)
    (retryDelay : Nat → JSError → Int) (now : Int)
    (onRetryResult : Except JSValue Unit) : HandleRetryResult :=
  let retryCount := st.retryCount + 1
  let delay := retryDelay retryCount error
  if !st.shouldResetTimeout && config.timeout != 0 && st.lastRequestTime != 0 then
    let lastRequestDuration := now - st.lastRequestTime
    let timeout := config.timeout - lastRequestDuration - delay
    if timeout ≤ 0 then ⟨retryCount, config, false, .rejectOriginal⟩
    else
      handleRetryDispatch retryCount delay { config with timeout := timeout }
        onRetryResult
  else handleRetryDispatch retryCount delay config onRetryResult

/-- src/index.ts handleMaxRetryTimesExceeded: awaits
onMaxRetryTimesExceeded(error, retryCount) only when
retryCount ≥ retries. Returns whether the hook ran, and its rejection
value when it rejected (which then replaces the propagated error). -/
def handleMaxRetryTimesExceeded (st : RetryState)
    (onMaxResult : Except JSValue Unit) : Bool × Option JSValue :=
  if st.retryCount ≥ st.retries then
    (true, match onMaxResult with | .error e => some e | .ok _ => none)
  else (false, none)

/-- How the response error interceptor settles for one failed attempt. -/
inductive Outcome where
  | rejectNoConfig
  | resolveResponse
  | retry (r : HandleRetryResult)
  | rejectCondThrow (e : JSValue)
  | rejectHookError (e : JSValue)
  | rejectOriginal (maxHookInvoked : Bool)
deriving DecidableEq, Repr

/-- src/index.ts response error interceptor (the rejected branch installed
by axiosRetry): reject at once without config; resolve the response when
validateResponse accepts it (hasConfig = error.config present,
validateAccepts = error.response present and
currentState.validateResponse?.(error.response) truthy); otherwise branch
on await shouldRetry — granted runs handleRetry, a synchronous condition
throw propagates, declined awaits handleMaxRetryTimesExceeded (whose
rejection replaces the error) and rejects. -/
def responseErrorInterceptor (hasConfig : Bool) (st : RetryState)
    (validateAccepts : Bool) (cond : CondReturn) (error : JSError)
    (config : ReqConfig) (retryDelay : Nat → JSError → Int) (now : Int)
    (onRetryResult onMaxResult : Except JSValue Unit) : Outcome :=
  if !hasConfig then .rejectNoConfig
  else if validateAccepts then .resolveResponse
  else
    match decideRetry st.retryCount st.retries cond with
    | .error e => .rejectCondThrow e
    | .ok true =>
      .retry (handleRetry st error config retryDelay now onRetryResult)
    | .ok false =>
      match handleMaxRetryTimesExceeded st onMaxResult with
      | (_, some e) => .rejectHookError e
      | (invoked, none) => .rejectOriginal invoked

/-! ## Helper lemmas (shared; none is a claim's theorem) -/

theorem decideRetry_of_not_lt (retryCount retries : Nat) (cond : CondReturn)
    (h : ¬ retryCount < retries) :
    decideRetry retryCount retries cond = .ok false := by
  simp [decideRetry, shouldRetry, h, Except.map, JSValue.truthy]

theorem decideRetry_ok_true_lt {retryCount retries : Nat} {cond : CondReturn}
    (h : decideRetry retryCount retries cond = .ok true) :
    retryCount < retries := by
  by_contra hlt
  rw [decideRetry_of_not_lt _ _ _ hlt] at h
  simp at h

theorem handleRetryDispatch_retryCount (retryCount : Nat) (delay : Int)
    (config : ReqConfig) (o : Except JSValue Unit) :
    (handleRetryDispatch retryCount delay config o).retryCount = retryCount := by
  unfold handleRetryDispatch
  cases o with
  | error e => rfl
  | ok u =>
    dsimp only []
    split <;> rfl

theorem handleRetry_retryCount (st : RetryState) (error : JSError)
    (config : ReqConfig) (retryDelay : Nat → JSError → Int) (now : Int)
    (o : Except JSValue Unit) :
    (handleRetry st error config retryDelay now o).retryCount =
      st.retryCount + 1 := by
  unfold handleRetry
  dsimp only []
  split
  · split
    · rfl
    · exact handleRetryDispatch_retryCount _ _ _ _
  · exact handleRetryDispatch_retryCount _ _ _ _

/-! ## Claim theorems -/

/-- C6: isRetryableError(error) is true iff error.code is not ECONNABORTED
and either no response is present, or the status is 429, or the status lies
in [500, 599]; in particular a status of exactly 429 is retryable although
429 is outside [500, 599]. -/
theorem isRetryableError_characterisation :
    (∀ e : JSError, isRetryableError e = true ↔
      (e.code ≠ some "ECONNABORTED" ∧
        (e.response = none ∨
          ∃ r, e.response = some r ∧
            (r.status = 429 ∨ (500 ≤ r.status ∧ r.status ≤ 599))))) ∧
    (∀ (e : JSError) (r : Response), e.response = some r → r.status = 429 →
      e.code ≠ some "ECONNABORTED" →
      isRetryableError e = true ∧ ¬ (500 ≤ r.status ∧ r.status ≤ 599)) := by
  constructor
  · rintro ⟨c, resp, cfg⟩
    cases resp with
    | none => simp [isRetryableError]
    | some r => simp [isRetryableError]
  · rintro ⟨c, resp, cfg⟩ r hr h429 hcode
    subst hr
    constructor
    · simp only [isRetryableError, h429]
      simp [hcode]
    · rw [h429]
      omega

/-- C7: the method-aware predicates return false whenever config or
config.method is absent; with a method present they are isRetryableError
conjoined with membership in the safe (get, head, options) respectively
idempotent (plus put, delete) method lists; and
isNetworkOrIdempotentRequestError is their disjunction with isNetworkError
and is the default retryCondition of DEFAULT_OPTIONS. -/
theorem method_predicates :
    (∀ e : JSError, e.config = none →
      isSafeRequestError e = false ∧ isIdempotentRequestError e = false) ∧
    (∀ e : JSError, configMethod e = none →
      isSafeRequestError e = false ∧ isIdempotentRequestError e = false) ∧
    (∀ (e : JSError) (m : String), configMethod e = some m →
      isSafeRequestError e =
        (isRetryableError e && SAFE_HTTP_METHODS.contains m) ∧
      isIdempotentRequestError e =
        (isRetryableError e && IDEMPOTENT_HTTP_METHODS.contains m)) ∧
    (∀ (isRetryAllowed : JSError → Bool) (e : JSError),
      isNetworkOrIdempotentRequestError isRetryAllowed e =
        (isNetworkError isRetryAllowed e || isIdempotentRequestError e)) ∧
    (∀ isRetryAllowed : JSError → Bool,
      (DEFAULT_OPTIONS isRetryAllowed).retryCondition =
        isNetworkOrIdempotentRequestError isRetryAllowed) := by
  refine ⟨?_, ?_, ?_, fun _ _ => rfl, fun _ => rfl⟩
  · intro e hc
    constructor <;> simp [isSafeRequestError, isIdempotentRequestError,
      configMethod, hc]
  · intro e hm
    constructor <;> simp [isSafeRequestError, isIdempotentRequestError, hm]
  · intro e m hm
    by_cases he : m = ""
    · subst he
      constructor <;>
        simp [isSafeRequestError, isIdempotentRequestError, hm,
          SAFE_HTTP_METHODS, IDEMPOTENT_HTTP_METHODS]
    · constructor <;>
        simp [isSafeRequestError, isIdempotentRequestError, hm, he]

/-- C1: a retry is granted only while retryCount < retries (shouldRetry
answers false once retryCount = retries), so the retryCount recorded after
the increment of a granted retry never exceeds retries; and with
retries = 0 the interceptor never schedules a retry at all, whatever the
error and the hooks do. -/
theorem retry_budget_invariant :
    (∀ (retryCount retries : Nat) (cond : CondReturn),
      decideRetry retryCount retries cond = .ok true → retryCount < retries) ∧
    (∀ hasConfig st validateAccepts cond error config retryDelay now onR onM r,
      responseErrorInterceptor hasConfig st validateAccepts cond error config
          retryDelay now onR onM = .retry r →
      st.retryCount < st.retries ∧ r.retryCount = st.retryCount + 1 ∧
        r.retryCount ≤ st.retries) ∧
    (∀ st : RetryState, st.retries = 0 →
      ∀ hasConfig validateAccepts cond error config retryDelay now onR onM r,
      responseErrorInterceptor hasConfig st validateAccepts cond error config
          retryDelay now onR onM ≠ .retry r) := by
  have h2 : ∀ hasConfig st validateAccepts cond error config retryDelay now
      onR onM r,
      responseErrorInterceptor hasConfig st validateAccepts cond error config
          retryDelay now onR onM = .retry r →
      st.retryCount < st.retries ∧ r.retryCount = st.retryCount + 1 ∧
        r.retryCount ≤ st.retries := by
    intro hasConfig st validateAccepts cond error config retryDelay now onR
      onM r h
    unfold responseErrorInterceptor at h
    split at h
    · exact Outcome.noConfusion h
    split at h
    · exact Outcome.noConfusion h
    split at h
    · exact Outcome.noConfusion h
    · rename_i heq
      injection h with h
      have hlt := decideRetry_ok_true_lt heq
      have hrc := handleRetry_retryCount st error config retryDelay now onR
      rw [h] at hrc
      exact ⟨hlt, hrc, by omega⟩
    · split at h <;> exact Outcome.noConfusion h
  refine ⟨fun _ _ _ h => decideRetry_ok_true_lt h, h2, ?_⟩
  intro st h0 hasConfig validateAccepts cond error config retryDelay now onR
    onM r h
  have := (h2 hasConfig st validateAccepts cond error config retryDelay now
    onR onM r h).1
  omega

/-- C4 counterexample: retryCondition returning null — a non-thenable whose
truthiness is false — nevertheless grants the retry: typeof null is
"object", so null goes through the await branch, awaits to itself, and
null is not the value false. The claim "a non-thenable's truthiness
decides" therefore fails at the concrete input null. -/
theorem retryCondition_null_counterexample :
    decideRetry 0 3 (.value .null) = .ok true ∧
    JSValue.truthy .null = false :=
  ⟨rfl, rfl⟩

/-- C4 (amended): while retryCount < retries, a rejected thenable or one
resolving to false yields no retry and any other settled value yields a
retry; a returned non-thenable whose typeof is not "object" decides by its
truthiness, while a returned null (typeof "object") takes the await branch
and yields a retry; and a synchronous throw from retryCondition is not
caught — it propagates as the rejection the caller sees. -/
theorem shouldRetry_decision (retryCount retries : Nat)
    (h : retryCount < retries) :
    (∀ r, decideRetry retryCount retries (.promise (.error r)) = .ok false) ∧
    (decideRetry retryCount retries (.promise (.ok (.bool false))) =
      .ok false) ∧
    (∀ v : JSValue, v ≠ .bool false →
      decideRetry retryCount retries (.promise (.ok v)) = .ok true) ∧
    (∀ v : JSValue, v.typeof ≠ "object" →
      decideRetry retryCount retries (.value v) = .ok v.truthy) ∧
    (decideRetry retryCount retries (.value .null) = .ok true) ∧
    (∀ e, decideRetry retryCount retries (.throws e) = .error e) := by
  refine ⟨?_, ?_, ?_, ?_, ?_, ?_⟩
  · intro r
    simp [decideRetry, shouldRetry, h, Except.map, JSValue.truthy]
  · simp [decideRetry, shouldRetry, h, Except.map, JSValue.truthy]
  · intro v hv
    simp [decideRetry, shouldRetry, h, Except.map, JSValue.truthy, hv]
  · intro v hv
    simp [decideRetry, shouldRetry, h, Except.map, hv]
  · simp [decideRetry, shouldRetry, h, Except.map, JSValue.typeof,
      JSValue.truthy]
  · intro e
    simp [decideRetry, shouldRetry, h, Except.map]

/-- C4 witness at concrete inputs. -/
theorem shouldRetry_decision_witness :
    decideRetry 1 3 (.value (.num 7)) = .ok true ∧
    decideRetry 1 3 (.promise (.error (.str "boom"))) = .ok false :=
  ⟨((shouldRetry_decision 1 3 (by decide)).2.2.2.1 (.num 7)
      (by decide)).trans (by rfl),
    (shouldRetry_decision 1 3 (by decide)).1 (.str "boom")⟩

/-- C5: when the decision declines, onMaxRetryTimesExceeded runs iff
retryCount ≥ retries (never when retryCondition declined with budget
remaining); it is awaited before propagation, and its own rejection
replaces the original error as the caller's rejection. -/
theorem onMaxRetryTimesExceeded_contract (st : RetryState) (cond : CondReturn)
    (error : JSError) (config : ReqConfig) (retryDelay : Nat → JSError → Int)
    (now : Int) (onRetryResult : Except JSValue Unit)
    (hdecl : decideRetry st.retryCount st.retries cond = .ok false) :
    (∀ onMaxResult : Except JSValue Unit,
      (handleMaxRetryTimesExceeded st onMaxResult).1 =
        decide (st.retries ≤ st.retryCount)) ∧
    (st.retries ≤ st.retryCount →
      (∀ e, responseErrorInterceptor true st false cond error config
          retryDelay now onRetryResult (.error e) = .rejectHookError e) ∧
      responseErrorInterceptor true st false cond error config retryDelay now
          onRetryResult (.ok ()) = .rejectOriginal true) ∧
    (st.retryCount < st.retries →
      ∀ onMaxResult, responseErrorInterceptor true st false cond error config
          retryDelay now onRetryResult onMaxResult =
        .rejectOriginal false) := by
  refine ⟨?_, ?_, ?_⟩
  · intro onMaxResult
    by_cases hge : st.retries ≤ st.retryCount <;>
      simp [handleMaxRetryTimesExceeded, hge, ge_iff_le]
  · intro hge
    constructor
    · intro e
      simp [responseErrorInterceptor, hdecl, handleMaxRetryTimesExceeded,
        ge_iff_le, hge]
    · simp [responseErrorInterceptor, hdecl, handleMaxRetryTimesExceeded,
        ge_iff_le, hge]
  · intro hlt onMaxResult
    have hge : ¬ st.retryCount ≥ st.retries := by omega
    simp [responseErrorInterceptor, hdecl, handleMaxRetryTimesExceeded, hge]

/-- C5 witness: retries exhausted (retryCount = retries = 3), the hook
rejects, and its rejection is what propagates. -/
theorem onMaxRetryTimesExceeded_witness :
    responseErrorInterceptor true ⟨3, 3, 1, false⟩ false
        (.value (.bool false)) ⟨none, none, none⟩ ⟨0, false, false⟩
        (fun _ _ => 0) 0 (.ok ()) (.error (.str "boom")) =
      .rejectHookError (.str "boom") :=
  ((onMaxRetryTimesExceeded_contract ⟨3, 3, 1, false⟩ (.value (.bool false))
      ⟨none, none, none⟩ ⟨0, false, false⟩ (fun _ _ => 0) 0 (.ok ())
      rfl).2.1 (by decide)).1 (.str "boom")

/-- C3: with a granted retry, shouldResetTimeout false and a truthy
timeout (and the always-truthy lastRequestTime of a dispatched request):
writing remaining = timeout - (now - lastRequestTime) - delay, a
non-positive remaining rejects with the original error at once — no hook,
no mutation, no resubmission — and a positive remaining becomes the
config's timeout for the next attempt (on every dispatch sub-path). -/
theorem handleRetry_timeout_budget (st : RetryState) (error : JSError)
    (config : ReqConfig) (retryDelay : Nat → JSError → Int) (now : Int)
    (onRetryResult : Except JSValue Unit)
    (hsrt : st.shouldResetTimeout = false) (ht : config.timeout ≠ 0)
    (hl : st.lastRequestTime ≠ 0) :
    (config.timeout - (now - st.lastRequestTime) -
        retryDelay (st.retryCount + 1) error ≤ 0 →
      handleRetry st error config retryDelay now onRetryResult =
        ⟨st.retryCount + 1, config, false, .rejectOriginal⟩) ∧
    (0 < config.timeout - (now - st.lastRequestTime) -
        retryDelay (st.retryCount + 1) error →
      (handleRetry st error config retryDelay now
          onRetryResult).config.timeout =
        config.timeout - (now - st.lastRequestTime) -
          retryDelay (st.retryCount + 1) error ∧
      (handleRetry st error config retryDelay now onRetryResult).outcome ≠
        .rejectOriginal) := by
  have hguard : (!st.shouldResetTimeout && config.timeout != 0 &&
      st.lastRequestTime != 0) = true := by
    simp [hsrt, bne_iff_ne, ht, hl]
  constructor
  · intro hle
    unfold handleRetry
    rw [hguard]
    simp only [if_true]
    rw [if_pos hle]
  · intro hpos
    unfold handleRetry
    rw [hguard]
    simp only [if_true]
    rw [if_neg (by omega)]
    unfold handleRetryDispatch
    cases onRetryResult with
    | error e => exact ⟨rfl, by simp⟩
    | ok u =>
      dsimp only []
      split
      · exact ⟨rfl, by simp⟩
      · exact ⟨rfl, by simp⟩

/-- C3 witness: timeout 1000ms, 50ms already elapsed, delay 2000ms —
remaining is negative, the original error is rejected at once. -/
theorem handleRetry_timeout_budget_witness :
    handleRetry ⟨3, 0, 50, false⟩ ⟨none, none, none⟩ ⟨1000, false, false⟩
        (fun _ _ => 2000) 100 (.ok ()) =
      ⟨1, ⟨1000, false, false⟩, false, .rejectOriginal⟩ :=
  (handleRetry_timeout_budget ⟨3, 0, 50, false⟩ ⟨none, none, none⟩
      ⟨1000, false, false⟩ (fun _ _ => 2000) 100 (.ok ()) rfl (by decide)
      (by decide)).1 (by decide)

/-- C10: on the deadline-exhausted branch the promise rejects with the
original error while retryCount was already incremented for a retry that
is never dispatched; the config (its timeout and transformRequest fields
included) is left exactly as it was, onRetry is not invoked, and on that
granted path the interceptor returns without consulting
onMaxRetryTimesExceeded (its outcome is the same whatever that hook would
do). -/
theorem handleRetry_deadline_frame (st : RetryState) (error : JSError)
    (config : ReqConfig) (retryDelay : Nat → JSError → Int) (now : Int)
    (onRetryResult : Except JSValue Unit)
    (hsrt : st.shouldResetTimeout = false) (ht : config.timeout ≠ 0)
    (hl : st.lastRequestTime ≠ 0)
    (hexh : config.timeout - (now - st.lastRequestTime) -
        retryDelay (st.retryCount + 1) error ≤ 0) :
    handleRetry st error config retryDelay now onRetryResult =
      ⟨st.retryCount + 1, config, false, .rejectOriginal⟩ ∧
    (∀ (cond : CondReturn) (onMax1 onMax2 : Except JSValue Unit),
      decideRetry st.retryCount st.retries cond = .ok true →
      responseErrorInterceptor true st false cond error config retryDelay now
          onRetryResult onMax1 =
        .retry ⟨st.retryCount + 1, config, false, .rejectOriginal⟩ ∧
      responseErrorInterceptor true st false cond error config retryDelay now
          onRetryResult onMax1 =
        responseErrorInterceptor true st false cond error config retryDelay
          now onRetryResult onMax2) := by
  have hguard : (!st.shouldResetTimeout && config.timeout != 0 &&
      st.lastRequestTime != 0) = true := by
    simp [hsrt, bne_iff_ne, ht, hl]
  have hmain : handleRetry st error config retryDelay now onRetryResult =
      ⟨st.retryCount + 1, config, false, .rejectOriginal⟩ := by
    unfold handleRetry
    rw [hguard]
    simp only [if_true]
    rw [if_pos hexh]
  refine ⟨hmain, ?_⟩
  intro cond onMax1 onMax2 hgrant
  constructor <;> simp [responseErrorInterceptor, hgrant, hmain]

/-- C10 witness: remaining = 500 - 50 - 1000 < 0; the interceptor returns
the incremented-but-rejected retry with the config untouched even though
onMaxRetryTimesExceeded would reject. -/
theorem handleRetry_deadline_frame_witness :
    responseErrorInterceptor true ⟨2, 1, 40, false⟩ false
        (.value (.bool true)) ⟨none, none, none⟩ ⟨500, false, false⟩
        (fun _ _ => 1000) 90 (.ok ()) (.error (.str "m")) =
      .retry ⟨2, ⟨500, false, false⟩, false, .rejectOriginal⟩ :=
  ((handleRetry_deadline_frame ⟨2, 1, 40, false⟩ ⟨none, none, none⟩
      ⟨500, false, false⟩ (fun _ _ => 1000) 90 (.ok ()) rfl (by decide)
      (by decide) (by decide)).2 (.value (.bool true)) (.error (.str "m"))
      (.ok ()) rfl).1

/-- C2 counterexample: a request whose stored state says "already
dispatched" (lastRequestTime 5, retryCount 1) and shouldResetTimeout
false passes through the request interceptor — as every retry
resubmission does — and its lastRequestTime is overwritten with the new
Date.now() 10: the interceptor passes resetLastRequestTime = true
unconditionally, so the claimed "set once, never reset unless
shouldResetTimeout" fails at this input. -/
theorem lastRequestTime_counterexample :
    (requestInterceptor (some ⟨none, some false, some 1, some 5⟩)
        ⟨none, none⟩ 10).shouldResetTimeout = false ∧
    (requestInterceptor (some ⟨none, some false, some 1, some 5⟩)
        ⟨none, none⟩ 10).lastRequestTime = 10 :=
  ⟨rfl, rfl⟩

/-- C2 (amended): the request interceptor sets lastRequestTime to the
current time on every pass — i.e. at every attempt's dispatch, not only
the first, and regardless of shouldResetTimeout — while the response
interceptor's state resolution (resetLastRequestTime false) preserves an
existing truthy lastRequestTime and only initialises a missing one. -/
theorem lastRequestTime_behavior :
    (∀ ns defaults now,
      (requestInterceptor ns defaults now).lastRequestTime = now) ∧
    (∀ (ext : ExtOptions) defaults now t, ext.lastRequestTime = some t →
      t ≠ 0 →
      (responseSetCurrentState (some ext) defaults now).lastRequestTime =
        t) ∧
    (∀ (ext : ExtOptions) defaults now, ext.lastRequestTime = none →
      (responseSetCurrentState (some ext) defaults now).lastRequestTime =
        now) := by
  refine ⟨?_, ?_, ?_⟩
  · intro ns defaults now
    simp [requestInterceptor, setCurrentState]
  · intro ext defaults now t hlrt hne
    simp [responseSetCurrentState, setCurrentState, getRequestOptions, hlrt,
      hne]
  · intro ext defaults now hlrt
    simp [responseSetCurrentState, setCurrentState, getRequestOptions, hlrt]

/-- A concrete platform number coercion used by witnesses. -/
def toNumW : String → Option Int :=
  fun s => if s = "5" then some 5 else none

/-- C8: a numeric retry-after header is read as seconds converted to
milliseconds; a non-numeric (or zero) one as a date from which now is
subtracted, floored at 0; and with the header retry-after: 5 the computed
retryAfter is 5000 and every built-in strategy — noDelay, linearDelay and
exponentialDelay — yields at least 5000 ms, for any attempt number and
factor. -/
theorem retryAfter_delays (toNum parseDate : String → Option Int) (now : Int)
    (hnum5 : toNum "5" = some 5) :
    (∀ (error : Option JSError) (h : String) (n : Int),
      retryAfterHeader error = some h → h ≠ "" → toNum h = some n → n ≠ 0 →
      retryAfter toNum parseDate now error = max 0 (n * 1000)) ∧
    (∀ (error : Option JSError) (h : String),
      retryAfterHeader error = some h → h ≠ "" → toNum h = none →
      retryAfter toNum parseDate now error =
        max 0 ((parseDate h).getD 0 - now)) ∧
    (∀ (error : Option JSError) (h : String),
      retryAfterHeader error = some h → h ≠ "" → toNum h = some 0 →
      retryAfter toNum parseDate now error =
        max 0 ((parseDate h).getD 0 - now)) ∧
    (∀ error : Option JSError, retryAfterHeader error = some "5" →
      retryAfter toNum parseDate now error = 5000 ∧
      (∀ retryCount, noDelay toNum parseDate now retryCount error = 5000) ∧
      (∀ (delayFactor : Int) (retryCount : Nat),
        (5000 : Int) ≤
          linearDelay toNum parseDate now delayFactor retryCount error) ∧
      (∀ (rand delayFactor : ℚ) (retryCount : Nat), 0 ≤ rand →
        (5000 : ℚ) ≤
          exponentialDelay toNum parseDate now rand retryCount error
            delayFactor)) := by
  have hnumeric : ∀ (error : Option JSError) (h : String) (n : Int),
      retryAfterHeader error = some h → h ≠ "" → toNum h = some n → n ≠ 0 →
      retryAfter toNum parseDate now error = max 0 (n * 1000) := by
    intro error h n hh hne hn hn0
    simp only [retryAfter, hh]
    rw [if_neg hne, hn]
    simp only [Option.getD_some]
    rw [if_neg (by exact fun hc => hn0 (by omega))]
  refine ⟨hnumeric, ?_, ?_, ?_⟩
  · intro error h hh hne hn
    simp only [retryAfter, hh]
    rw [if_neg hne, hn]
    simp
  · intro error h hh hne hn
    simp only [retryAfter, hh]
    rw [if_neg hne, hn]
    simp
  · intro error hh
    have hra : retryAfter toNum parseDate now error = 5000 := by
      have := hnumeric error "5" 5 hh (by decide) hnum5 (by decide)
      simpa using this
    refine ⟨hra, ?_, ?_, ?_⟩
    · intro retryCount
      rw [noDelay, hra]
      rfl
    · intro delayFactor retryCount
      rw [linearDelay, hra]
      exact le_max_right _ _
    · intro rand delayFactor retryCount hrand
      rw [exponentialDelay, hra]
      have hdelay : (5000 : ℚ) ≤ max (2 ^ retryCount * delayFactor)
          (((5000 : Int) : ℚ)) := by
        norm_num
      have hjit : 0 ≤ max (2 ^ retryCount * delayFactor)
          (((5000 : Int) : ℚ)) * (1 / 5) * rand := by
        have h0 : (0 : ℚ) ≤ max (2 ^ retryCount * delayFactor)
            (((5000 : Int) : ℚ)) := le_trans (by norm_num) hdelay
        positivity
      push_cast at hdelay hjit ⊢
      linarith

/-- C8 witness: the header retry-after: 5 gives retryAfter = 5000 ms. -/
theorem retryAfter_delays_witness :
    retryAfter toNumW (fun _ => none) 7
      (some ⟨none, some ⟨429, [("retry-after", "5")]⟩, none⟩) = 5000 :=
  ((retryAfter_delays toNumW (fun _ => none) 7 (by simp [toNumW])).2.2.2
      (some ⟨none, some ⟨429, [("retry-after", "5")]⟩, none⟩) rfl).1

/-- C9: with no retry-after header, exponentialDelay(n, error, factor) is
2 ^ n * factor plus the jitter delay * 0.2 * rand — so with the uniform
draw rand in [0, 1) it always lies in [2 ^ n * factor,
1.2 * 2 ^ n * factor] — and for every fixed draw it is non-decreasing in
n (hence so is its expected value over the uniform draw). -/
theorem exponentialDelay_bounds (toNum parseDate : String → Option Int)
    (now : Int) (error : Option JSError) (rand delayFactor : ℚ)
    (hhdr : retryAfterHeader error = none)
    (h0 : 0 ≤ rand) (h1 : rand < 1) (hf : 0 ≤ delayFactor) :
    (∀ retryCount : Nat,
      exponentialDelay toNum parseDate now rand retryCount error
          delayFactor =
        2 ^ retryCount * delayFactor * (1 + rand / 5)) ∧
    (∀ retryCount : Nat,
      2 ^ retryCount * delayFactor ≤
        exponentialDelay toNum parseDate now rand retryCount error
          delayFactor) ∧
    (∀ retryCount : Nat,
      exponentialDelay toNum parseDate now rand retryCount error
          delayFactor ≤
        6 / 5 * (2 ^ retryCount * delayFactor)) ∧
    (∀ n m : Nat, n ≤ m →
      exponentialDelay toNum parseDate now rand n error delayFactor ≤
        exponentialDelay toNum parseDate now rand m error delayFactor) := by
  have hra : retryAfter toNum parseDate now error = 0 := by
    unfold retryAfter
    rw [hhdr]
  have heq : ∀ retryCount : Nat,
      exponentialDelay toNum parseDate now rand retryCount error
          delayFactor =
        2 ^ retryCount * delayFactor * (1 + rand / 5) := by
    intro retryCount
    rw [exponentialDelay, hra]
    have hbase : (0 : ℚ) ≤ 2 ^ retryCount * delayFactor := by positivity
    rw [show (((0 : Int) : ℚ)) = 0 by norm_num, max_eq_left hbase]
    ring
  have hbase : ∀ retryCount : Nat, (0 : ℚ) ≤ 2 ^ retryCount * delayFactor :=
    fun retryCount => by positivity
  refine ⟨heq, ?_, ?_, ?_⟩
  · intro retryCount
    rw [heq retryCount]
    nlinarith [hbase retryCount]
  · intro retryCount
    rw [heq retryCount]
    nlinarith [hbase retryCount]
  · intro n m hnm
    rw [heq n, heq m]
    have hpow : (2 : ℚ) ^ n ≤ 2 ^ m :=
      pow_le_pow_right₀ (by norm_num) hnm
    have hjit : (0 : ℚ) ≤ 1 + rand / 5 := by linarith
    exact mul_le_mul_of_nonneg_right
      (mul_le_mul_of_nonneg_right hpow hf) hjit

/-- C9 witness: factor 100, draw one half, attempt 3: the delay is
800 * (1 + 1/10) = 880 ms, inside [800, 960]. -/
theorem exponentialDelay_bounds_witness :
    exponentialDelay (fun _ => none) (fun _ => none) 0 (1 / 2) 3 none 100 =
      880 := by
  have h := (exponentialDelay_bounds (fun _ => none) (fun _ => none) 0 none
    (1 / 2) 100 rfl (by norm_num) (by norm_num) (by norm_num)).1 3
  rw [h]
  norm_num

end AxiosRetry
